import Mathlib

/-!
Shallow embedding of the nagios_exporter program (src/main.go) in Lean 4,
together with theorems settling the frozen claims about its behavior.

Numeric JSON fields of the Go program are float64 values decoded from
string-encoded decimal numerals; they are modelled as rationals, which
represent every such numeral exactly.  Machine counters are int; they are
modelled as Nat (no overflow is relevant at these magnitudes).
-/

/-- A host record as decoded from `/objects/hoststatus`, mirroring the
anonymous struct inside `hostStatus` in main.go. -/
structure HostRecord where
  HostObjectID : ℚ
  CheckType : ℚ
  CurrentState : ℚ
  IsFlapping : ℚ
  ScheduledDowntimeDepth : ℚ
deriving DecidableEq

/-- A service record as decoded from `/objects/servicestatus`, mirroring the
anonymous struct inside `serviceStatus` in main.go. -/
structure ServiceRecord where
  HasBeenChecked : ℚ
  ShouldBeScheduled : ℚ
  CheckType : ℚ
  CurrentState : ℚ
  IsFlapping : ℚ
  ScheduledDowntimeDepth : ℚ
deriving DecidableEq

/-- The decoded `/objects/hoststatus` payload (struct hostStatus). -/
structure hostStatus where
  Recordcount : Int
  Hoststatus : List HostRecord
deriving DecidableEq

/-- The decoded `/objects/servicestatus` payload (struct serviceStatus). -/
structure serviceStatus where
  Recordcount : Int
  Servicestatus : List ServiceRecord
deriving DecidableEq

/-- The decoded `/system/status` payload (struct systemStatus). -/
structure systemStatus where
  Running : ℚ
deriving DecidableEq

/-- The decoded `/system/info` payload (struct systemInfo). -/
structure systemInfo where
  Version : String
deriving DecidableEq

/-- The local host counters of HitNagiosRestApisAndUpdateMetrics:
hostsCount, hostsActiveCheckCount, hostsPassiveCheckCount, hostsUpCount,
hostsDownCount, hostsUnreachableCount, hostsFlapCount, hostsDowntimeCount. -/
@[ext] structure HostCounters where
  count : Nat
  activeCheck : Nat
  passiveCheck : Nat
  up : Nat
  down : Nat
  unreachable : Nat
  flap : Nat
  downtime : Nat
deriving DecidableEq

/-- The local service counters of HitNagiosRestApisAndUpdateMetrics:
servicesCount, servicessCheckedCount, servicesScheduledCount,
servicesActiveCheckCount, servicesPassiveCheckCount, servicesOkCount,
servicesWarnCount, servicesCriticalCount, servicesUnknownCount,
servicesFlapCount, servicesDowntimeCount. -/
@[ext] structure ServiceCounters where
  count : Nat
  checked : Nat
  scheduled : Nat
  activeCheck : Nat
  passiveCheck : Nat
  ok : Nat
  warn : Nat
  critical : Nat
  unknown : Nat
  flap : Nat
  downtime : Nat
deriving DecidableEq

def HostCounters.zero : HostCounters := ⟨0, 0, 0, 0, 0, 0, 0, 0⟩

def ServiceCounters.zero : ServiceCounters := ⟨0, 0, 0, 0, 0, 0, 0, 0, 0, 0, 0⟩

/-- One iteration of the host loop in HitNagiosRestApisAndUpdateMetrics
(main.go lines 363-390): increment the total, the binary check-type
partition, the three-way current_state switch, and the flapping and
downtime overlays.  Each Go statement of the loop body touches exactly one
counter variable, and the switch dispatches on disjoint literal cases, so
the loop body is written here as a record of per-counter updates, one
entry per Go statement or case arm. -/
def hostStep (c : HostCounters) (v : HostRecord) : HostCounters where
  count := c.count + 1
  activeCheck := if v.CheckType = 0 then c.activeCheck + 1 else c.activeCheck
  passiveCheck := if v.CheckType = 0 then c.passiveCheck else c.passiveCheck + 1
  up := if v.CurrentState = 0 then c.up + 1 else c.up
  down := if v.CurrentState = 1 then c.down + 1 else c.down
  unreachable := if v.CurrentState = 2 then c.unreachable + 1 else c.unreachable
  flap := if v.IsFlapping = 1 then c.flap + 1 else c.flap
  downtime := if v.ScheduledDowntimeDepth = 1 then c.downtime + 1 else c.downtime

/-- One iteration of the service loop in HitNagiosRestApisAndUpdateMetrics
(main.go lines 456-495), written per counter in the same way as hostStep.
Note the Go code increments servicessCheckedCount when has_been_checked
is 0 and servicesScheduledCount when should_be_scheduled is 0. -/
def serviceStep (c : ServiceCounters) (v : ServiceRecord) : ServiceCounters where
  count := c.count + 1
  checked := if v.HasBeenChecked = 0 then c.checked + 1 else c.checked
  scheduled := if v.ShouldBeScheduled = 0 then c.scheduled + 1 else c.scheduled
  activeCheck := if v.CheckType = 0 then c.activeCheck + 1 else c.activeCheck
  passiveCheck := if v.CheckType = 0 then c.passiveCheck else c.passiveCheck + 1
  ok := if v.CurrentState = 0 then c.ok + 1 else c.ok
  warn := if v.CurrentState = 1 then c.warn + 1 else c.warn
  critical := if v.CurrentState = 2 then c.critical + 1 else c.critical
  unknown := if v.CurrentState = 3 then c.unknown + 1 else c.unknown
  flap := if v.IsFlapping = 1 then c.flap + 1 else c.flap
  downtime := if v.ScheduledDowntimeDepth = 1 then c.downtime + 1 else c.downtime

/-- The single-pass host aggregation: the for-range loop over
hostStatusObject.Hoststatus starting from all-zero counters. -/
def hostAggregate (l : List HostRecord) : HostCounters :=
  l.foldl hostStep HostCounters.zero

/-- The single-pass service aggregation: the for-range loop over
serviceStatusObject.Servicestatus starting from all-zero counters. -/
def serviceAggregate (l : List ServiceRecord) : ServiceCounters :=
  l.foldl serviceStep ServiceCounters.zero

/-! ### Closed forms for the aggregation counters -/

/-- Pointwise sum of host counters. -/
def HostCounters.add (a b : HostCounters) : HostCounters :=
  ⟨a.count + b.count, a.activeCheck + b.activeCheck, a.passiveCheck + b.passiveCheck,
   a.up + b.up, a.down + b.down, a.unreachable + b.unreachable,
   a.flap + b.flap, a.downtime + b.downtime⟩

/-- Pointwise sum of service counters. -/
def ServiceCounters.add (a b : ServiceCounters) : ServiceCounters :=
  ⟨a.count + b.count, a.checked + b.checked, a.scheduled + b.scheduled,
   a.activeCheck + b.activeCheck, a.passiveCheck + b.passiveCheck,
   a.ok + b.ok, a.warn + b.warn, a.critical + b.critical, a.unknown + b.unknown,
   a.flap + b.flap, a.downtime + b.downtime⟩

/-- The host counters written as per-predicate counts over the list. -/
def hostCountsOf (l : List HostRecord) : HostCounters :=
  ⟨l.length,
   l.countP (fun v => decide (v.CheckType = 0)),
   l.countP (fun v => !decide (v.CheckType = 0)),
   l.countP (fun v => decide (v.CurrentState = 0)),
   l.countP (fun v => decide (v.CurrentState = 1)),
   l.countP (fun v => decide (v.CurrentState = 2)),
   l.countP (fun v => decide (v.IsFlapping = 1)),
   l.countP (fun v => decide (v.ScheduledDowntimeDepth = 1))⟩

/-- The service counters written as per-predicate counts over the list. -/
def serviceCountsOf (l : List ServiceRecord) : ServiceCounters :=
  ⟨l.length,
   l.countP (fun v => decide (v.HasBeenChecked = 0)),
   l.countP (fun v => decide (v.ShouldBeScheduled = 0)),
   l.countP (fun v => decide (v.CheckType = 0)),
   l.countP (fun v => !decide (v.CheckType = 0)),
   l.countP (fun v => decide (v.CurrentState = 0)),
   l.countP (fun v => decide (v.CurrentState = 1)),
   l.countP (fun v => decide (v.CurrentState = 2)),
   l.countP (fun v => decide (v.CurrentState = 3)),
   l.countP (fun v => decide (v.IsFlapping = 1)),
   l.countP (fun v => decide (v.ScheduledDowntimeDepth = 1))⟩

lemma foldl_hostStep (l : List HostRecord) :
    ∀ c : HostCounters, l.foldl hostStep c = c.add (hostCountsOf l) := by
  induction l with
  | nil =>
    intro c
    simp [hostCountsOf, HostCounters.add]
  | cons v t ih =>
    intro c
    rw [List.foldl_cons, ih]
    ext <;> simp [hostStep, hostCountsOf, HostCounters.add, List.countP_cons] <;>
      (try split_ifs) <;> omega

lemma foldl_serviceStep (l : List ServiceRecord) :
    ∀ c : ServiceCounters, l.foldl serviceStep c = c.add (serviceCountsOf l) := by
  induction l with
  | nil =>
    intro c
    simp [serviceCountsOf, ServiceCounters.add]
  | cons v t ih =>
    intro c
    rw [List.foldl_cons, ih]
    ext <;> simp [serviceStep, serviceCountsOf, ServiceCounters.add, List.countP_cons] <;>
      (try split_ifs) <;> omega

lemma hostAggregate_eq_counts (l : List HostRecord) :
    hostAggregate l = hostCountsOf l := by
  rw [hostAggregate, foldl_hostStep]
  ext <;> simp [HostCounters.zero, HostCounters.add]

lemma serviceAggregate_eq_counts (l : List ServiceRecord) :
    serviceAggregate l = serviceCountsOf l := by
  rw [serviceAggregate, foldl_serviceStep]
  ext <;> simp [ServiceCounters.zero, ServiceCounters.add]

/-! ### Counting helpers -/

lemma countP_pred_add_not {α : Type} (p : α → Prop) [DecidablePred p] (l : List α) :
    l.countP (fun a => decide (p a)) + l.countP (fun a => !decide (p a)) = l.length := by
  induction l with
  | nil => simp
  | cons a t ih => by_cases h : p a <;> simp [List.countP_cons, h] <;> omega

lemma countP_three_disjoint_le {α : Type} (f : α → ℚ) (a b c : ℚ) (l : List α)
    (hab : a ≠ b) (hac : a ≠ c) (hbc : b ≠ c) :
    l.countP (fun v => decide (f v = a)) + l.countP (fun v => decide (f v = b)) +
      l.countP (fun v => decide (f v = c)) ≤ l.length := by
  induction l with
  | nil => simp
  | cons x t ih =>
    simp only [List.countP_cons, List.length_cons]
    by_cases h1 : f x = a
    · simp [h1, hab, hac]
      omega
    · by_cases h2 : f x = b
      · simp [h2, Ne.symm hab, hbc]
        omega
      · by_cases h3 : f x = c
        · simp [h3, Ne.symm hac, Ne.symm hbc]
          omega
        · simp [h1, h2, h3]
          omega

/-- C2. For every host list of size N the check-type partition is exact,
the state buckets sum to at most N, and a record whose current_state is
outside the enum 0, 1, 2 increments no state bucket while still being
counted in the total. -/
theorem hostAggregate_partition (l : List HostRecord) :
    (hostAggregate l).activeCheck + (hostAggregate l).passiveCheck = l.length ∧
    (hostAggregate l).up + (hostAggregate l).down + (hostAggregate l).unreachable ≤
      l.length ∧
    ∀ (c : HostCounters) (v : HostRecord),
      v.CurrentState ≠ 0 → v.CurrentState ≠ 1 → v.CurrentState ≠ 2 →
      (hostStep c v).up = c.up ∧ (hostStep c v).down = c.down ∧
        (hostStep c v).unreachable = c.unreachable ∧
        (hostStep c v).count = c.count + 1 := by
  refine ⟨?_, ?_, ?_⟩
  · rw [hostAggregate_eq_counts]
    exact countP_pred_add_not (fun v : HostRecord => v.CheckType = 0) l
  · rw [hostAggregate_eq_counts]
    exact countP_three_disjoint_le (fun v : HostRecord => v.CurrentState) 0 1 2 l
      (by norm_num) (by norm_num) (by norm_num)
  · intro c v h0 h1 h2
    refine ⟨?_, ?_, ?_, rfl⟩ <;> simp [hostStep, h0, h1, h2]

/-- Instantiation of hostAggregate_partition: three concrete hosts, one of
them with the out-of-enum state 7 (which lands in no state bucket). -/
theorem hostAggregate_partition_witness :
    (hostAggregate [⟨1, 0, 0, 0, 0⟩, ⟨2, 1, 7, 0, 0⟩, ⟨3, 0, 1, 0, 0⟩]).activeCheck +
        (hostAggregate [⟨1, 0, 0, 0, 0⟩, ⟨2, 1, 7, 0, 0⟩, ⟨3, 0, 1, 0, 0⟩]).passiveCheck =
      3 ∧
    (hostAggregate [⟨1, 0, 0, 0, 0⟩, ⟨2, 1, 7, 0, 0⟩, ⟨3, 0, 1, 0, 0⟩]).up +
        (hostAggregate [⟨1, 0, 0, 0, 0⟩, ⟨2, 1, 7, 0, 0⟩, ⟨3, 0, 1, 0, 0⟩]).down +
        (hostAggregate [⟨1, 0, 0, 0, 0⟩, ⟨2, 1, 7, 0, 0⟩, ⟨3, 0, 1, 0, 0⟩]).unreachable ≤
      3 ∧
    ((hostStep HostCounters.zero ⟨2, 1, 7, 0, 0⟩).up = HostCounters.zero.up ∧
      (hostStep HostCounters.zero ⟨2, 1, 7, 0, 0⟩).down = HostCounters.zero.down ∧
      (hostStep HostCounters.zero ⟨2, 1, 7, 0, 0⟩).unreachable =
        HostCounters.zero.unreachable ∧
      (hostStep HostCounters.zero ⟨2, 1, 7, 0, 0⟩).count = HostCounters.zero.count + 1) := by
  have h := hostAggregate_partition [⟨1, 0, 0, 0, 0⟩, ⟨2, 1, 7, 0, 0⟩, ⟨3, 0, 1, 0, 0⟩]
  exact ⟨h.1, h.2.1, h.2.2 HostCounters.zero ⟨2, 1, 7, 0, 0⟩
    (by decide) (by decide) (by decide)⟩

/-- C6. Aggregation is a pure function of the record list and is
order-independent: permuting the input changes no counter, and re-running
it on the same list gives the identical result. -/
theorem aggregation_order_independent (h1 h2 : List HostRecord)
    (s1 s2 : List ServiceRecord) (hp : h1.Perm h2) (sp : s1.Perm s2) :
    hostAggregate h1 = hostAggregate h2 ∧
    serviceAggregate s1 = serviceAggregate s2 ∧
    hostAggregate h1 = hostAggregate h1 ∧
    serviceAggregate s1 = serviceAggregate s1 := by
  refine ⟨?_, ?_, rfl, rfl⟩
  · rw [hostAggregate_eq_counts, hostAggregate_eq_counts]
    ext <;> simp only [hostCountsOf] <;>
      first | exact hp.length_eq | exact hp.countP_eq _
  · rw [serviceAggregate_eq_counts, serviceAggregate_eq_counts]
    ext <;> simp only [serviceCountsOf] <;>
      first | exact sp.length_eq | exact sp.countP_eq _

/-- Instantiation of aggregation_order_independent on two-element lists and
their swaps. -/
theorem aggregation_order_independent_witness :
    hostAggregate [⟨1, 0, 0, 0, 0⟩, ⟨2, 1, 1, 1, 1⟩] =
      hostAggregate [⟨2, 1, 1, 1, 1⟩, ⟨1, 0, 0, 0, 0⟩] ∧
    serviceAggregate [⟨1, 1, 0, 0, 0, 0⟩, ⟨0, 0, 1, 2, 1, 1⟩] =
      serviceAggregate [⟨0, 0, 1, 2, 1, 1⟩, ⟨1, 1, 0, 0, 0, 0⟩] ∧
    hostAggregate [⟨1, 0, 0, 0, 0⟩, ⟨2, 1, 1, 1, 1⟩] =
      hostAggregate [⟨1, 0, 0, 0, 0⟩, ⟨2, 1, 1, 1, 1⟩] ∧
    serviceAggregate [⟨1, 1, 0, 0, 0, 0⟩, ⟨0, 0, 1, 2, 1, 1⟩] =
      serviceAggregate [⟨1, 1, 0, 0, 0, 0⟩, ⟨0, 0, 1, 2, 1, 1⟩] :=
  aggregation_order_independent _ _ _ _ (by decide) (by decide)

/-- C7. Appending one record to the input list raises the flapping counter
exactly when is_flapping equals 1 and the downtime counter exactly when
scheduled_downtime_depth equals 1; every other value of those fields,
fractional values included, leaves the counter unchanged. -/
theorem flapping_downtime_overlay (l : List HostRecord) (v : HostRecord)
    (m : List ServiceRecord) (w : ServiceRecord) :
    (hostAggregate (l ++ [v])).flap =
      (hostAggregate l).flap + (if v.IsFlapping = 1 then 1 else 0) ∧
    (hostAggregate (l ++ [v])).downtime =
      (hostAggregate l).downtime +
        (if v.ScheduledDowntimeDepth = 1 then 1 else 0) ∧
    (serviceAggregate (m ++ [w])).flap =
      (serviceAggregate m).flap + (if w.IsFlapping = 1 then 1 else 0) ∧
    (serviceAggregate (m ++ [w])).downtime =
      (serviceAggregate m).downtime +
        (if w.ScheduledDowntimeDepth = 1 then 1 else 0) := by
  refine ⟨?_, ?_, ?_, ?_⟩ <;>
    simp [hostAggregate_eq_counts, serviceAggregate_eq_counts, hostCountsOf,
      serviceCountsOf, List.countP_append, List.countP_cons]

/-- The four service records of Scenario B: current_state values 0, 1, 2, 3
and check_type 0 on all four. -/
def scenarioBServices : List ServiceRecord :=
  [⟨0, 0, 0, 0, 0, 0⟩, ⟨0, 0, 0, 1, 0, 0⟩, ⟨0, 0, 0, 2, 0, 0⟩, ⟨0, 0, 0, 3, 0, 0⟩]

/-- C4. Aggregating the Scenario B service list yields ok=1, warn=1,
critical=1, unknown=1, active=4, passive=0. -/
theorem serviceAggregate_scenarioB :
    (serviceAggregate scenarioBServices).ok = 1 ∧
    (serviceAggregate scenarioBServices).warn = 1 ∧
    (serviceAggregate scenarioBServices).critical = 1 ∧
    (serviceAggregate scenarioBServices).unknown = 1 ∧
    (serviceAggregate scenarioBServices).activeCheck = 4 ∧
    (serviceAggregate scenarioBServices).passiveCheck = 0 := by decide

/-! ### JSON values and decoding -/

/-- A JSON value, as handed to json.Unmarshal after parsing. -/
inductive Json where
  | str (s : String)
  | num (q : ℚ)
  | jsonBool (b : Bool)
  | null
  | arr (elems : List Json)
  | obj (fields : List (String × Json))

/-- Numeric value of a digit list, most significant first. -/
def digitsVal (cs : List Char) : Nat :=
  cs.foldl (fun acc c => acc * 10 + (c.toNat - 48)) 0

/-- Parse an unsigned decimal numeral, integral digits with an optional
fractional part, into numerator and power-of-ten denominator exponent.
Exponent forms are not needed by the backend payloads and are omitted. -/
def parseDecimal (cs : List Char) : Option (Nat × Nat) :=
  match cs.span Char.isDigit with
  | (intPart, rest) =>
    if intPart.isEmpty then none
    else
      match rest with
      | [] => some (digitsVal intPart, 0)
      | '.' :: frac =>
        if frac.isEmpty || !frac.all Char.isDigit then none
        else some (digitsVal intPart * 10 ^ frac.length + digitsVal frac, frac.length)
      | _ => none

/-- Parse a decimal numeral, optionally signed, as a rational. -/
def parseNum (s : String) : Option ℚ :=
  match s.toList with
  | '-' :: cs => (parseDecimal cs).map (fun p => mkRat (-(p.1 : Int)) (10 ^ p.2))
  | cs => (parseDecimal cs).map (fun p => mkRat (p.1 : Int) (10 ^ p.2))

/-- Decoding of a float64 field carrying the string option of
encoding/json: the JSON value must be a string whose contents are a
numeral, and the numeral is converted to its numeric value. -/
def decodeStringNum (v : Json) : Except String ℚ :=
  match v with
  | .str s =>
    match parseNum s with
    | some q => .ok q
    | none => .error "invalid numeral inside string"
  | _ => .error "invalid use of string option on non-string value"

/-- Field loop of json.Unmarshal into struct systemStatus: the key
is_currently_running feeds the Running field through the string option;
every other key is ignored.  Later duplicates of a key override earlier
ones, as in a streaming decoder. -/
def decodeSystemStatusFields :
    List (String × Json) → systemStatus → Except String systemStatus
  | [], acc => .ok acc
  | (k, v) :: rest, acc =>
    if k = "is_currently_running" then
      match decodeStringNum v with
      | .ok q => decodeSystemStatusFields rest { acc with Running := q }
      | .error e => .error e
    else decodeSystemStatusFields rest acc

/-- json.Unmarshal into struct systemStatus: a JSON object is decoded
field by field, null leaves the zero value, anything else is a type
error. -/
def decodeSystemStatus : Json → Except String systemStatus
  | .obj fields => decodeSystemStatusFields fields ⟨0⟩
  | .null => .ok ⟨0⟩
  | _ => .error "cannot unmarshal into systemStatus"

/-- Field loop of json.Unmarshal into struct systemInfo: the key version
must carry a JSON string, taken verbatim; every other key is ignored. -/
def decodeSystemInfoFields :
    List (String × Json) → systemInfo → Except String systemInfo
  | [], acc => .ok acc
  | (k, v) :: rest, acc =>
    if k = "version" then
      match v with
      | .str s => decodeSystemInfoFields rest { acc with Version := s }
      | _ => .error "cannot unmarshal into string field version"
    else decodeSystemInfoFields rest acc

/-- json.Unmarshal into struct systemInfo. -/
def decodeSystemInfo : Json → Except String systemInfo
  | .obj fields => decodeSystemInfoFields fields ⟨""⟩
  | .null => .ok ⟨""⟩
  | _ => .error "cannot unmarshal into systemInfo"

/-- Field loop of json.Unmarshal into one element of the Hoststatus
slice: five float64 fields, all carrying the string option; unrecognized
keys are ignored. -/
def decodeHostRecordFields :
    List (String × Json) → HostRecord → Except String HostRecord
  | [], acc => .ok acc
  | (k, v) :: rest, acc =>
    if k = "host_object_id" then
      match decodeStringNum v with
      | .ok q => decodeHostRecordFields rest { acc with HostObjectID := q }
      | .error e => .error e
    else if k = "check_type" then
      match decodeStringNum v with
      | .ok q => decodeHostRecordFields rest { acc with CheckType := q }
      | .error e => .error e
    else if k = "current_state" then
      match decodeStringNum v with
      | .ok q => decodeHostRecordFields rest { acc with CurrentState := q }
      | .error e => .error e
    else if k = "is_flapping" then
      match decodeStringNum v with
      | .ok q => decodeHostRecordFields rest { acc with IsFlapping := q }
      | .error e => .error e
    else if k = "scheduled_downtime_depth" then
      match decodeStringNum v with
      | .ok q => decodeHostRecordFields rest { acc with ScheduledDowntimeDepth := q }
      | .error e => .error e
    else decodeHostRecordFields rest acc

/-- json.Unmarshal into one element of the Hoststatus slice. -/
def decodeHostRecord : Json → Except String HostRecord
  | .obj fields => decodeHostRecordFields fields ⟨0, 0, 0, 0, 0⟩
  | .null => .ok ⟨0, 0, 0, 0, 0⟩
  | _ => .error "cannot unmarshal into host record"

/-- Field loop of json.Unmarshal into struct hostStatus: recordcount is a
plain int64 (a JSON number without fractional part), hoststatus is the
record slice, every other key is ignored. -/
def decodeHostStatusFields :
    List (String × Json) → hostStatus → Except String hostStatus
  | [], acc => .ok acc
  | (k, v) :: rest, acc =>
    if k = "recordcount" then
      match v with
      | .num q =>
        if q.den = 1 then decodeHostStatusFields rest { acc with Recordcount := q.num }
        else .error "cannot unmarshal fractional number into int64"
      | _ => .error "cannot unmarshal into int64 field recordcount"
    else if k = "hoststatus" then
      match v with
      | .arr elems =>
        match elems.mapM decodeHostRecord with
        | .ok rs => decodeHostStatusFields rest { acc with Hoststatus := rs }
        | .error e => .error e
      | .null => decodeHostStatusFields rest acc
      | _ => .error "cannot unmarshal into slice field hoststatus"
    else decodeHostStatusFields rest acc

/-- json.Unmarshal into struct hostStatus. -/
def decodeHostStatus : Json → Except String hostStatus
  | .obj fields => decodeHostStatusFields fields ⟨0, []⟩
  | .null => .ok ⟨0, []⟩
  | _ => .error "cannot unmarshal into hostStatus"

/-- Field loop of json.Unmarshal into one element of the Servicestatus
slice: six float64 fields, all carrying the string option; unrecognized
keys are ignored. -/
def decodeServiceRecordFields :
    List (String × Json) → ServiceRecord → Except String ServiceRecord
  | [], acc => .ok acc
  | (k, v) :: rest, acc =>
    if k = "has_been_checked" then
      match decodeStringNum v with
      | .ok q => decodeServiceRecordFields rest { acc with HasBeenChecked := q }
      | .error e => .error e
    else if k = "should_be_scheduled" then
      match decodeStringNum v with
      | .ok q => decodeServiceRecordFields rest { acc with ShouldBeScheduled := q }
      | .error e => .error e
    else if k = "check_type" then
      match decodeStringNum v with
      | .ok q => decodeServiceRecordFields rest { acc with CheckType := q }
      | .error e => .error e
    else if k = "current_state" then
      match decodeStringNum v with
      | .ok q => decodeServiceRecordFields rest { acc with CurrentState := q }
      | .error e => .error e
    else if k = "is_flapping" then
      match decodeStringNum v with
      | .ok q => decodeServiceRecordFields rest { acc with IsFlapping := q }
      | .error e => .error e
    else if k = "scheduled_downtime_depth" then
      match decodeStringNum v with
      | .ok q => decodeServiceRecordFields rest { acc with ScheduledDowntimeDepth := q }
      | .error e => .error e
    else decodeServiceRecordFields rest acc

/-- json.Unmarshal into one element of the Servicestatus slice. -/
def decodeServiceRecord : Json → Except String ServiceRecord
  | .obj fields => decodeServiceRecordFields fields ⟨0, 0, 0, 0, 0, 0⟩
  | .null => .ok ⟨0, 0, 0, 0, 0, 0⟩
  | _ => .error "cannot unmarshal into service record"

/-- Field loop of json.Unmarshal into struct serviceStatus. -/
def decodeServiceStatusFields :
    List (String × Json) → serviceStatus → Except String serviceStatus
  | [], acc => .ok acc
  | (k, v) :: rest, acc =>
    if k = "recordcount" then
      match v with
      | .num q =>
        if q.den = 1 then
          decodeServiceStatusFields rest { acc with Recordcount := q.num }
        else .error "cannot unmarshal fractional number into int64"
      | _ => .error "cannot unmarshal into int64 field recordcount"
    else if k = "servicestatus" then
      match v with
      | .arr elems =>
        match elems.mapM decodeServiceRecord with
        | .ok rs => decodeServiceStatusFields rest { acc with Servicestatus := rs }
        | .error e => .error e
      | .null => decodeServiceStatusFields rest acc
      | _ => .error "cannot unmarshal into slice field servicestatus"
    else decodeServiceStatusFields rest acc

/-- json.Unmarshal into struct serviceStatus. -/
def decodeServiceStatus : Json → Except String serviceStatus
  | .obj fields => decodeServiceStatusFields fields ⟨0, []⟩
  | .null => .ok ⟨0, []⟩
  | _ => .error "cannot unmarshal into serviceStatus"

/-! ### Metric emission and the scrape pipeline -/

/-- A sample sent on the collector channel: a prometheus gauge identified
by its full metric name, with an optional label value. -/
inductive Metric where
  | gauge (name : String) (value : ℚ)
  | gaugeLabeled (name : String) (label : String) (value : ℚ)
deriving DecidableEq

/-- The metric stream of one completed pass of
HitNagiosRestApisAndUpdateMetrics given the three decoded payloads, in
emission order.  Two quirks of the source are kept faithfully: the
services_passively_checked_total sample carries the host passive-check
counter (main.go line 502) and the services_critical_total sample
carries the service warn counter (main.go line 514). -/
def scrapeMetrics (infoObj : systemInfo) (hostObj : hostStatus)
    (svcObj : serviceStatus) : List Metric :=
  let h := hostAggregate hostObj.Hoststatus
  let s := serviceAggregate svcObj.Servicestatus
  [Metric.gaugeLabeled "nagios_version_info" infoObj.Version 1,
   Metric.gauge "nagios_hosts_total" (hostObj.Recordcount : ℚ),
   Metric.gauge "nagios_hosts_actively_checked_total" (h.activeCheck : ℚ),
   Metric.gauge "nagios_hosts_passively_checked_total" (h.passiveCheck : ℚ),
   Metric.gauge "nagios_hosts_up_total" (h.up : ℚ),
   Metric.gauge "nagios_hosts_down_total" (h.down : ℚ),
   Metric.gauge "nagios_hosts_unreachable_total" (h.unreachable : ℚ),
   Metric.gauge "nagios_hosts_flapping_total" (h.flap : ℚ),
   Metric.gauge "nagios_hosts_downtime_total" (h.downtime : ℚ),
   Metric.gauge "nagios_services_total" (svcObj.Recordcount : ℚ),
   Metric.gauge "nagios_services_actively_checked_total" (s.activeCheck : ℚ),
   Metric.gauge "nagios_services_passively_checked_total" (h.passiveCheck : ℚ),
   Metric.gauge "nagios_services_ok_total" (s.ok : ℚ),
   Metric.gauge "nagios_services_warn_total" (s.warn : ℚ),
   Metric.gauge "nagios_services_critical_total" (s.warn : ℚ),
   Metric.gauge "nagios_services_unknown_total" (s.unknown : ℚ),
   Metric.gauge "nagios_services_flapping_total" (s.flap : ℚ),
   Metric.gauge "nagios_services_downtime_total" (s.downtime : ℚ)]

/-- The outcome of one HTTP GET against the backend: a transport error
(connection refused, DNS failure, timeout) or a response carrying a
status code and a body.  The source never reads the status code. -/
inductive FetchResult where
  | netError
  | response (statusCode : Nat) (body : Json)

/-- Result of running a piece of the program: either the process has
exited with the given status code (os.Exit or log.Fatal) or the code
finished normally with a value. -/
inductive ProcResult (α : Type) where
  | exited (code : Nat)
  | ok (val : α)
deriving DecidableEq

/-- The four backend responses one Collect invocation consumes. -/
structure World where
  statusResp : FetchResult
  infoResp : FetchResult
  hostResp : FetchResult
  serviceResp : FetchResult

/-- TestNagiosConnectivity (main.go lines 233-266).  A transport error on
the GET prints the error and calls os.Exit(1); a body that fails to
decode hits log.Fatal, which also exits with status 1.  Otherwise the
decoded is_currently_running value is returned together with the error
value of the GET, which is necessarily nil on this path because a
non-nil error already exited. -/
def testNagiosConnectivity (r : FetchResult) : ProcResult (ℚ × Option String) :=
  match r with
  | .netError => .exited 1
  | .response _ body =>
    match decodeSystemStatus body with
    | .error _ => .exited 1
    | .ok statusObj => .ok (statusObj.Running, none)

/-- HitNagiosRestApisAndUpdateMetrics (main.go lines 286-531): fetch and
decode /system/info, /objects/hoststatus and /objects/servicestatus in
that order, aggregate, and emit the metric stream.  A transport error
calls os.Exit(1) and a decode error calls log.Fatal, so a completed
scrape exists only when all three fetches deliver decodable bodies (the
samples already written to the channel before a fatal exit die with the
process); the HTTP status codes are never inspected. -/
def hitNagiosRestApisAndUpdateMetrics (info host svc : FetchResult) :
    ProcResult (List Metric) :=
  match info with
  | .netError => .exited 1
  | .response _ ibody =>
    match decodeSystemInfo ibody with
    | .error _ => .exited 1
    | .ok infoObj =>
      match host with
      | .netError => .exited 1
      | .response _ hbody =>
        match decodeHostStatus hbody with
        | .error _ => .exited 1
        | .ok hostObj =>
          match svc with
          | .netError => .exited 1
          | .response _ sbody =>
            match decodeServiceStatus sbody with
            | .error _ => .exited 1
            | .ok svcObj => .ok (scrapeMetrics infoObj hostObj svcObj)

/-- Collect (main.go lines 268-284): run the connectivity test; when it
returns a non-nil error, emit only the up gauge and stop; otherwise emit
the up gauge with the returned liveness value and run the rest of the
pipeline. -/
def Collect (w : World) : ProcResult (List Metric) :=
  match testNagiosConnectivity w.statusResp with
  | .exited c => .exited c
  | .ok (nagiosStatus, err) =>
    match err with
    | some _ => .ok [Metric.gauge "nagios_up" nagiosStatus]
    | none =>
      match hitNagiosRestApisAndUpdateMetrics w.infoResp w.hostResp w.serviceResp with
      | .exited c => .exited c
      | .ok ms => .ok (Metric.gauge "nagios_up" nagiosStatus :: ms)

/-- The sample value a metric stream carries for a given metric name (the
first matching sample). -/
def metricValue (ms : List Metric) (name : String) : Option ℚ :=
  ms.findSome? fun m =>
    match m with
    | .gauge n v => if n = name then some v else none
    | .gaugeLabeled n _ v => if n = name then some v else none

/-! ### Claims about the emitted metric stream -/

/-- C3. In every completed scrape the services_passively_checked_total
sample carries the host passive-check counter and the
services_critical_total sample carries the service warn counter. -/
theorem service_metric_crosswiring (infoObj : systemInfo) (hostObj : hostStatus)
    (svcObj : serviceStatus) :
    metricValue (scrapeMetrics infoObj hostObj svcObj)
        "nagios_services_passively_checked_total" =
      some ((hostAggregate hostObj.Hoststatus).passiveCheck : ℚ) ∧
    metricValue (scrapeMetrics infoObj hostObj svcObj)
        "nagios_services_critical_total" =
      some ((serviceAggregate svcObj.Servicestatus).warn : ℚ) :=
  ⟨rfl, rfl⟩

/-- C9. The hosts_total and services_total samples carry the decoded
recordcount fields rather than the lengths of the decoded lists; the
check-type counters always sum to the list length; and on a payload whose
recordcount disagrees with its list length the emitted total therefore
differs from active + passive, the scrape completing with no cross-check. -/
theorem totals_use_recordcount (infoObj : systemInfo) (hostObj : hostStatus)
    (svcObj : serviceStatus) :
    metricValue (scrapeMetrics infoObj hostObj svcObj) "nagios_hosts_total" =
      some (hostObj.Recordcount : ℚ) ∧
    metricValue (scrapeMetrics infoObj hostObj svcObj) "nagios_services_total" =
      some (svcObj.Recordcount : ℚ) ∧
    (hostAggregate hostObj.Hoststatus).activeCheck +
        (hostAggregate hostObj.Hoststatus).passiveCheck =
      hostObj.Hoststatus.length ∧
    (serviceAggregate svcObj.Servicestatus).activeCheck +
        (serviceAggregate svcObj.Servicestatus).passiveCheck =
      svcObj.Servicestatus.length ∧
    metricValue (scrapeMetrics infoObj ⟨5, [⟨1, 0, 0, 0, 0⟩]⟩ svcObj)
        "nagios_hosts_total" = some 5 ∧
    (hostAggregate [⟨1, 0, 0, 0, 0⟩]).activeCheck +
        (hostAggregate [⟨1, 0, 0, 0, 0⟩]).passiveCheck = 1 ∧
    (5 : ℚ) ≠ 1 := by
  refine ⟨rfl, rfl, ?_, ?_, ?_, by decide, by norm_num⟩
  · rw [hostAggregate_eq_counts]
    exact countP_pred_add_not (fun v : HostRecord => v.CheckType = 0) _
  · rw [serviceAggregate_eq_counts]
    exact countP_pred_add_not (fun v : ServiceRecord => v.CheckType = 0) _
  · rfl

/-! ### Claims about the scrape pipeline -/

/-- C1 evaluated on the failing input: a network error on the liveness
probe makes TestNagiosConnectivity call os.Exit(1), so that Collect
invocation terminates the whole process and emits no metric at all, the
up gauge included; no subsequent scrape is served. -/
theorem collect_network_error_exits_process :
    testNagiosConnectivity FetchResult.netError = ProcResult.exited 1 ∧
    Collect ⟨FetchResult.netError, FetchResult.netError, FetchResult.netError,
      FetchResult.netError⟩ = ProcResult.exited 1 :=
  ⟨rfl, rfl⟩

/-- A decodable /system/status body. -/
def statusBodyOne : Json := Json.obj [("is_currently_running", Json.str "1")]

/-- A decodable /system/info body. -/
def infoBodyDemo : Json := Json.obj [("version", Json.str "5.8.10")]

/-- A decodable /objects/hoststatus body with one record. -/
def hostBodyDemo : Json :=
  Json.obj
    [("recordcount", Json.num 1),
     ("hoststatus", Json.arr
       [Json.obj
         [("host_object_id", Json.str "7"), ("check_type", Json.str "0"),
          ("current_state", Json.str "1"), ("is_flapping", Json.str "0"),
          ("scheduled_downtime_depth", Json.str "0")]])]

/-- A decodable /objects/servicestatus body with one record. -/
def serviceBodyDemo : Json :=
  Json.obj
    [("recordcount", Json.num 1),
     ("servicestatus", Json.arr
       [Json.obj
         [("has_been_checked", Json.str "1"), ("should_be_scheduled", Json.str "1"),
          ("check_type", Json.str "0"), ("current_state", Json.str "2"),
          ("is_flapping", Json.str "0"), ("scheduled_downtime_depth", Json.str "0")]])]

/-- C5 evaluated on the failing input: the pipeline never inspects the
HTTP status code -- every choice of status codes yields the identical
result -- and responses carrying status 500 or 503 have their bodies
decoded and aggregated into a completed metric snapshot instead of
failing. -/
theorem non2xx_response_parsed_as_data :
    (∀ (c1 c2 c3 c4 d1 d2 d3 d4 : Nat) (b1 b2 b3 b4 : Json),
      Collect ⟨FetchResult.response c1 b1, FetchResult.response c2 b2,
          FetchResult.response c3 b3, FetchResult.response c4 b4⟩ =
        Collect ⟨FetchResult.response d1 b1, FetchResult.response d2 b2,
          FetchResult.response d3 b3, FetchResult.response d4 b4⟩) ∧
    Collect ⟨FetchResult.response 500 statusBodyOne,
        FetchResult.response 500 infoBodyDemo,
        FetchResult.response 503 hostBodyDemo,
        FetchResult.response 500 serviceBodyDemo⟩ =
      ProcResult.ok (Metric.gauge "nagios_up" 1 ::
        scrapeMetrics ⟨"5.8.10"⟩ ⟨1, [⟨7, 0, 1, 0, 0⟩]⟩
          ⟨1, [⟨1, 1, 0, 2, 0, 0⟩]⟩) :=
  ⟨fun _ _ _ _ _ _ _ _ _ _ _ _ => rfl, rfl⟩

/-- C10. Whenever the liveness request returns a decodable body, Collect
emits the up gauge carrying the raw decoded is_currently_running value
and proceeds with the version, host and service fetches regardless of
that value. -/
theorem collect_emits_raw_liveness (w : World) (code : Nat) (body : Json) (q : ℚ)
    (hresp : w.statusResp = FetchResult.response code body)
    (hdec : decodeSystemStatus body = Except.ok ⟨q⟩) :
    Collect w =
      match hitNagiosRestApisAndUpdateMetrics w.infoResp w.hostResp w.serviceResp with
      | ProcResult.exited c => ProcResult.exited c
      | ProcResult.ok ms => ProcResult.ok (Metric.gauge "nagios_up" q :: ms) := by
  simp [Collect, testNagiosConnectivity, hresp, hdec]

/-- Instantiation of collect_emits_raw_liveness on a backend reporting
is_currently_running equal to 0: the scrape emits up with value 0 and
still carries the full metric snapshot. -/
theorem collect_emits_raw_liveness_witness :
    Collect ⟨FetchResult.response 200
        (Json.obj [("is_currently_running", Json.str "0")]),
      FetchResult.response 200 infoBodyDemo,
      FetchResult.response 200 hostBodyDemo,
      FetchResult.response 200 serviceBodyDemo⟩ =
      ProcResult.ok (Metric.gauge "nagios_up" 0 ::
        scrapeMetrics ⟨"5.8.10"⟩ ⟨1, [⟨7, 0, 1, 0, 0⟩]⟩
          ⟨1, [⟨1, 1, 0, 2, 0, 0⟩]⟩) := by
  have h := collect_emits_raw_liveness
    ⟨FetchResult.response 200 (Json.obj [("is_currently_running", Json.str "0")]),
      FetchResult.response 200 infoBodyDemo,
      FetchResult.response 200 hostBodyDemo,
      FetchResult.response 200 serviceBodyDemo⟩
    200 (Json.obj [("is_currently_running", Json.str "0")]) 0 rfl rfl
  rw [h]
  rfl

/-! ### Decoding tolerance (schema flexibility) -/

lemma decodeSystemStatusFields_skip :
    ∀ (pre rest : List (String × Json)) (acc : systemStatus),
      (∀ p ∈ pre, p.1 ≠ "is_currently_running") →
      decodeSystemStatusFields (pre ++ rest) acc = decodeSystemStatusFields rest acc
  | [], _, _, _ => rfl
  | (k, v) :: t, rest, acc, h => by
    have hk : k ≠ "is_currently_running" := h (k, v) (by simp)
    simp only [List.cons_append, decodeSystemStatusFields, if_neg hk]
    exact decodeSystemStatusFields_skip t rest acc (fun p hp => h p (by simp [hp]))

lemma decodeSystemInfoFields_skip :
    ∀ (pre rest : List (String × Json)) (acc : systemInfo),
      (∀ p ∈ pre, p.1 ≠ "version") →
      decodeSystemInfoFields (pre ++ rest) acc = decodeSystemInfoFields rest acc
  | [], _, _, _ => rfl
  | (k, v) :: t, rest, acc, h => by
    have hk : k ≠ "version" := h (k, v) (by simp)
    simp only [List.cons_append, decodeSystemInfoFields, if_neg hk]
    exact decodeSystemInfoFields_skip t rest acc (fun p hp => h p (by simp [hp]))

/-- C8. Decoding succeeds when numeric fields arrive as quoted strings,
converting each numeral to its numeric value; the version field is
decoded as an opaque string, never required to be numeric; and object
keys outside the schema, whatever value they carry, are skipped rather
than failing the decode. -/
theorem decode_tolerates_string_numbers
    (s ver s1 s2 s3 s4 s5 : String) (q q1 q2 q3 q4 q5 : ℚ)
    (pre1 post1 pre2 post2 : List (String × Json))
    (hq : parseNum s = some q)
    (hpre1 : ∀ p ∈ pre1, p.1 ≠ "is_currently_running")
    (hpost1 : ∀ p ∈ post1, p.1 ≠ "is_currently_running")
    (hpre2 : ∀ p ∈ pre2, p.1 ≠ "version")
    (hpost2 : ∀ p ∈ post2, p.1 ≠ "version")
    (h1 : parseNum s1 = some q1) (h2 : parseNum s2 = some q2)
    (h3 : parseNum s3 = some q3) (h4 : parseNum s4 = some q4)
    (h5 : parseNum s5 = some q5) :
    decodeSystemStatus (Json.obj
        (pre1 ++ ("is_currently_running", Json.str s) :: post1)) =
      Except.ok ⟨q⟩ ∧
    decodeSystemInfo (Json.obj (pre2 ++ ("version", Json.str ver) :: post2)) =
      Except.ok ⟨ver⟩ ∧
    decodeHostRecord (Json.obj
        [("host_object_id", Json.str s1), ("check_type", Json.str s2),
         ("current_state", Json.str s3), ("is_flapping", Json.str s4),
         ("scheduled_downtime_depth", Json.str s5)]) =
      Except.ok ⟨q1, q2, q3, q4, q5⟩ := by
  refine ⟨?_, ?_, ?_⟩
  · simp only [decodeSystemStatus]
    rw [decodeSystemStatusFields_skip pre1 _ _ hpre1]
    simp only [decodeSystemStatusFields, if_pos, decodeStringNum, hq]
    have h0 := decodeSystemStatusFields_skip post1 [] ⟨q⟩ hpost1
    simpa using h0
  · simp only [decodeSystemInfo]
    rw [decodeSystemInfoFields_skip pre2 _ _ hpre2]
    simp only [decodeSystemInfoFields, if_pos]
    have h0 := decodeSystemInfoFields_skip post2 [] ⟨ver⟩ hpost2
    simpa using h0
  · simp [decodeHostRecord, decodeHostRecordFields, decodeStringNum,
      h1, h2, h3, h4, h5]

/-- Instantiation of decode_tolerates_string_numbers: string-encoded
numbers (integral, fractional and negative), a free-form version string,
and unrecognized keys before and after the known ones. -/
theorem decode_tolerates_string_numbers_witness :
    decodeSystemStatus (Json.obj
        [("some_new_field", Json.num 3),
         ("is_currently_running", Json.str "1.5"),
         ("extra_field", Json.arr [])]) = Except.ok ⟨mkRat 15 10⟩ ∧
    decodeSystemInfo (Json.obj
        [("note", Json.null), ("version", Json.str "5.8.10"),
         ("build", Json.num 2)]) = Except.ok ⟨"5.8.10"⟩ ∧
    decodeHostRecord (Json.obj
        [("host_object_id", Json.str "7"), ("check_type", Json.str "0"),
         ("current_state", Json.str "2"), ("is_flapping", Json.str "-1"),
         ("scheduled_downtime_depth", Json.str "0.5")]) =
      Except.ok ⟨7, 0, 2, -1, mkRat 1 2⟩ :=
  decode_tolerates_string_numbers "1.5" "5.8.10" "7" "0" "2" "-1" "0.5"
    (mkRat 15 10) 7 0 2 (-1) (mkRat 1 2)
    [("some_new_field", Json.num 3)] [("extra_field", Json.arr [])]
    [("note", Json.null)] [("build", Json.num 2)]
    (by decide) (by decide) (by decide) (by decide) (by decide)
    (by decide) (by decide) (by decide) (by decide) (by decide)
